import Mathlib

/-! Verification of the order/payment reconciliation layer of an e-commerce
application against its specification.  The Python sources embedded here are
`src/routes/payment.py` (request handlers `process_payment`, `payment_result`,
`webhook`) and `src/services/payment.py` (the `PayOSAPI` provider client).
Machine integers in the source are unbounded Python ints, embedded as `Int`;
HTTP transport, the HMAC primitive and the webhook-signature verifier are
external collaborators and are passed in as explicit function parameters. -/

set_option linter.unusedVariables false

namespace PayFlow

/-! ## Data model: orders, carts, and the mutable store
`Order` mirrors the fields of the external Order collaborator that the payment
code reads and writes (`models/order.py` is outside the given sources; the
fields are exactly the ones the handlers touch).  `State` is the persisted
store: the order table keyed by id (a Python int), the per-user cart contents,
and a counter of how many times `Cart.clear_cart` has run for each user, so
that side-effect counts are observable. -/

/-- The order status enum `OrderStatus` used by the handlers. -/
inductive OrderStatus where
  | CREATED
  | PROCESSING
  | PAID
  | CANCELLED
  deriving DecidableEq, Repr

/-- The fields of an `Order` row that the payment code reads or writes. -/
structure Order where
  user_id : Nat
  status : OrderStatus
  payment_method : Option String
  payment_id : Option String
  total : Int
  deriving DecidableEq, Repr

/-- The persisted store the handlers mutate. -/
structure State where
  orders : Int → Option Order
  cart : Nat → List Nat
  clearCount : Nat → Nat

/-- `Cart.clear_cart(user_id)`: empties the cart of one user; the counter
records each invocation so duplicated side effects are visible. -/
def clear_cart (u : Nat) (s : State) : State :=
  { orders := s.orders,
    cart := fun v => if v = u then [] else s.cart v,
    clearCount := fun v => if v = u then s.clearCount v + 1 else s.clearCount v }

/-- Writing the mutated order row back (the effect of `db.session.commit()`
after assigning to the fields of the fetched `order`). -/
def setOrder (oid : Int) (o : Order) (s : State) : State :=
  { orders := fun i => if i = oid then some o else s.orders i,
    cart := s.cart,
    clearCount := s.clearCount }

/-! ## The webhook handler, `src/routes/payment.py` lines 149-190
`request.json` is embedded as `Option WebhookBody`: `none` is a missing,
unparseable or empty (falsy) body, `some data` a non-empty JSON object
projected to the three fields the handler reads (`orderCode` a JSON number,
`status` and `transactionId` JSON strings, each `none` when the key is
absent).  `api.verify_webhook` lives in `payment_providers/payos.py`, which is
not among the given sources; the handler only branches on its boolean result,
so it is passed in as the parameter `verify_webhook`. -/

/-- The three fields of the webhook JSON body that the handler reads. -/
structure WebhookBody where
  orderCode : Option Int
  status : Option String
  transactionId : Option String
  deriving DecidableEq, Repr

/-- The JSON response of the webhook endpoint together with its HTTP status
code (200 for a plain `jsonify` return). -/
structure WebhookResp where
  success : Bool
  message : String
  httpStatus : Nat
  deriving DecidableEq, Repr

/-- Python truthiness of `data.get('orderCode')`: `None` and `0` are falsy. -/
def pyTruthyInt : Option Int → Bool
  | none => false
  | some n => n != 0

/-- Python truthiness of `data.get('status')`: `None` and `""` are falsy. -/
def pyTruthyStr : Option String → Bool
  | none => false
  | some s => s != ""

/-- The `POST /payment/webhook` handler (`webhook` in `src/routes/payment.py`). -/
def webhook (verify_webhook : WebhookBody → Bool) (body : Option WebhookBody)
    (s : State) : WebhookResp × State :=
  match body with
  | none => ({ success := false, message := "No data received", httpStatus := 400 }, s)
  | some data =>
    if !verify_webhook data then
      ({ success := false, message := "Invalid signature", httpStatus := 400 }, s)
    else if !pyTruthyInt data.orderCode || !pyTruthyStr data.status then
      ({ success := false, message := "Missing required fields", httpStatus := 400 }, s)
    else
      match s.orders (data.orderCode.getD 0) with
      | none => ({ success := false, message := "Order not found", httpStatus := 404 }, s)
      | some o =>
        if data.status = some "success" then
          let s1 := setOrder (data.orderCode.getD 0)
            { o with status := OrderStatus.PAID, payment_id := data.transactionId } s
          let s2 := clear_cart o.user_id s1
          ({ success := true, message := "Webhook processed successfully", httpStatus := 200 }, s2)
        else if data.status = some "failed" || data.status = some "cancel" then
          let s1 := setOrder (data.orderCode.getD 0) { o with status := OrderStatus.CANCELLED } s
          ({ success := true, message := "Webhook processed successfully", httpStatus := 200 }, s1)
        else
          ({ success := true, message := "Webhook processed successfully", httpStatus := 200 }, s)

/-! ## The payment-result redirect handler, `src/routes/payment.py` lines 100-147
Query parameters arrive as strings; `request.args.get` yields `Option String`.
`int(order_id)` is Python integer parsing of a string; it is embedded as
`pyInt` below (`String.toInt?` accepts exactly the canonical decimal numerals,
with optional leading minus, which is the fragment the provider sends).  When
`int` raises, the surrounding `try` swallows the exception and the handler
falls through to rendering the result template. -/

/-- Decimal evaluation of a digit list, rejecting any non-digit. -/
def digitsVal : List Char → Nat → Option Nat
  | [], acc => some acc
  | c :: cs, acc =>
    if c.isDigit then digitsVal cs (acc * 10 + (c.toNat - 48)) else none

/-- Parse of a non-empty all-digit list. -/
def parseDigits : List Char → Option Nat
  | [] => none
  | cs => digitsVal cs 0

/-- Python `int(...)` applied to a string: the canonical-numeral fragment
(optional sign followed by decimal digits), `none` when `int` raises. -/
def pyInt (s : String) : Option Int :=
  match s.data with
  | [] => none
  | '-' :: cs => (parseDigits cs).map (fun n => -(n : Int))
  | '+' :: cs => (parseDigits cs).map (fun n => (n : Int))
  | cs => (parseDigits cs).map (fun n => (n : Int))

/-- The query parameters of `GET /payment/payment-result` that the handler
reads (`status`, `orderCode`, `errorCode`, `transactionId`). -/
structure ResultArgs where
  status : Option String
  orderCode : Option String
  errorCode : Option String
  transactionId : Option String
  deriving DecidableEq, Repr

/-- The response of the payment-result handler: a redirect to the order-detail
page, a redirect to checkout, or the rendered result template. -/
inductive ResultResp where
  | redirectOrderDetail (order_id : Int)
  | redirectCheckout
  | render (status : String) (transaction_id : String) (error : Option String)
  deriving DecidableEq, Repr

/-- The `GET /payment/payment-result` handler (`payment_result` in
`src/routes/payment.py`).  `current_user` is `some u` when the session is
authenticated as user `u` and `none` otherwise. -/
def payment_result (current_user : Option Nat) (args : ResultArgs) (s : State) :
    ResultResp × State :=
  let status := args.status.getD "unknown"
  let transaction_id := args.transactionId.getD ""
  let renderDefault := ResultResp.render status transaction_id args.errorCode
  match args.orderCode with
  | none => (renderDefault, s)
  | some ocStr =>
    if ocStr = "" then (renderDefault, s)
    else
      match pyInt ocStr with
      | none => (renderDefault, s)
      | some oid =>
        match s.orders oid with
        | none => (renderDefault, s)
        | some o =>
          if status = "success" then
            let s1 := setOrder oid
              { o with status := OrderStatus.PAID, payment_id := some transaction_id } s
            let s2 := clear_cart o.user_id s1
            if current_user = some o.user_id then (ResultResp.redirectOrderDetail oid, s2)
            else (renderDefault, s2)
          else
            if current_user = some o.user_id then (ResultResp.redirectCheckout, s)
            else (renderDefault, s)

/-! ## A model of Python JSON values
The provider client manipulates parsed JSON (`response.json()`, `json.dumps`).
JSON numbers are embedded as `Int` (the payloads here carry only integers;
floats are out of scope for every claim). -/

/-- A parsed JSON value / Python object built from dicts, lists, strings,
ints, bools and `None`. -/
inductive Json where
  | null
  | bool (b : Bool)
  | num (n : Int)
  | str (s : String)
  | arr (elems : List Json)
  | obj (fields : List (String × Json))

/-- Dictionary key lookup, first binding wins (Python dicts have unique keys). -/
def lookupField : List (String × Json) → String → Option Json
  | [], _ => none
  | (k, v) :: fs, key => if k = key then some v else lookupField fs key

/-- Python `d.get(key)`: `None` when the key is missing, `AttributeError`
(an exception, here `Except.error`) when the receiver is not a dict. -/
def pyGet (j : Json) (key : String) : Except String Json :=
  match j with
  | .obj fields => .ok ((lookupField fields key).getD Json.null)
  | _ => .error "AttributeError: object has no attribute get"

/-- Python `d[key]`: `KeyError` when the key is missing, `TypeError` when the
receiver is not a dict. -/
def pyIndex (j : Json) (key : String) : Except String Json :=
  match j with
  | .obj fields =>
    match lookupField fields key with
    | some v => .ok v
    | none => .error ("KeyError: " ++ key)
  | _ => .error "TypeError: value is not subscriptable"

/-- Python `value == s` for a string literal `s`: true exactly when the value
is an equal string. -/
def jsonEqStr (v : Json) (s : String) : Bool :=
  match v with
  | .str t => t == s
  | _ => false

/-! ### `json.dumps(data, separators=(',', ':'), sort_keys=True)`
The compact deterministic serialization used by `_create_signature`.  Keys of
every object are sorted lexicographically; strings are escaped the way the
Python `json` module does with its default `ensure_ascii=True` (shortcut
escapes for the common control characters, `\uXXXX` for other characters
outside the printable ASCII range, surrogate pairs above `0xFFFF`). -/

/-- Lower-case hex digit. -/
def hexDigit (n : Nat) : Char :=
  if n < 10 then Char.ofNat (48 + n) else Char.ofNat (97 + (n - 10))

/-- Four lower-case hex digits of a 16-bit value. -/
def u16hex (n : Nat) : String :=
  String.mk [hexDigit (n / 4096 % 16), hexDigit (n / 256 % 16),
             hexDigit (n / 16 % 16), hexDigit (n % 16)]

/-- Escape of a single character inside a JSON string literal. -/
def escapeChar (c : Char) : String :=
  if c = '"' then "\\\""
  else if c = '\\' then "\\\\"
  else if c = '\n' then "\\n"
  else if c = '\t' then "\\t"
  else if c = '\r' then "\\r"
  else if c = '\x08' then "\\b"
  else if c = '\x0c' then "\\f"
  else if c.toNat < 0x20 then "\\u" ++ u16hex c.toNat
  else if c.toNat < 0x7f then String.singleton c
  else if c.toNat ≤ 0xffff then "\\u" ++ u16hex c.toNat
  else
    let n := c.toNat - 0x10000
    "\\u" ++ u16hex (0xd800 + n / 0x400) ++ "\\u" ++ u16hex (0xdc00 + n % 0x400)

/-- Escape of a whole string. -/
def escapeStr (s : String) : String :=
  s.foldl (fun acc c => acc ++ escapeChar c) ""

/-- Insert a rendered key/value pair into a key-sorted list (stable). -/
def insertByKey (p : String × String) : List (String × String) → List (String × String)
  | [] => [p]
  | q :: qs => if p.1 ≤ q.1 then p :: q :: qs else q :: insertByKey p qs

/-- Stable insertion sort of rendered key/value pairs by key, matching the
lexicographic `sort_keys=True` order. -/
def sortByKey : List (String × String) → List (String × String)
  | [] => []
  | p :: ps => insertByKey p (sortByKey ps)

/-- Comma-join. -/
def joinComma : List String → String
  | [] => ""
  | [x] => x
  | x :: y :: xs => x ++ "," ++ joinComma (y :: xs)

mutual

/-- `json.dumps` with `separators=(',', ':')` and `sort_keys=True`. -/
def jsonDumps : Json → String
  | .null => "null"
  | .bool true => "true"
  | .bool false => "false"
  | .num n => toString n
  | .str s => "\"" ++ escapeStr s ++ "\""
  | .arr xs => "[" ++ joinComma (jsonDumpsList xs) ++ "]"
  | .obj fs => "\x7b" ++ joinComma ((sortByKey (jsonDumpsFields fs)).map Prod.snd) ++ "\x7d"

/-- Renders every array element. -/
def jsonDumpsList : List Json → List String
  | [] => []
  | x :: xs => jsonDumps x :: jsonDumpsList xs

/-- Renders every field as `(key, "key":value)`; sorting happens afterwards. -/
def jsonDumpsFields : List (String × Json) → List (String × String)
  | [] => []
  | (k, v) :: fs => (k, "\"" ++ escapeStr k ++ "\":" ++ jsonDumps v) :: jsonDumpsFields fs

end

/-! ## The provider client `PayOSAPI`, `src/services/payment.py`
The credentials (`checksum_key`, `client_id`, `api_key`, `api_base_url`) are
the instance attributes set in `__init__`; construction rejects falsy
credentials, and an absent or empty string both read as falsy, so an absent
secret is embedded as the empty string.  The HMAC-SHA256 hex digest primitive
`hmac.new(key, msg, hashlib.sha256).hexdigest()` is the external `hmac`
library, passed in as the function parameter `hmacHex` over the UTF-8 bytes
of key and message.  `requests.post` is the external transport, passed in as
a function from the outbound request to either an exception (`Except.error`)
or an HTTP response. -/

/-- `_create_signature(self, data)` of `PayOSAPI` (lines 107-122): when the
secret is falsy it logs and returns the empty string; otherwise it is the
HMAC-SHA256 hex digest of the sorted compact JSON dump of `data`. -/
def create_signature (checksum_key : String)
    (hmacHex : ByteArray → ByteArray → String) (data : Json) : String :=
  if checksum_key = "" then ""
  else hmacHex checksum_key.toUTF8 (jsonDumps data).toUTF8

/-- The fields of the `payment_data` dict built by `create_payment`, with the
single line item inlined (`items = [{name, price, quantity}]`). -/
structure PaymentData where
  orderCode : Int
  amount : Int
  description : String
  returnUrl : String
  cancelUrl : String
  itemName : String
  itemPrice : Int
  itemQuantity : Nat
  deriving DecidableEq, Repr

/-- The `payment_data` dict of `create_payment` (lines 38-51). -/
def paymentData (order_id : String) (amount : Int) (order_code : Int) : PaymentData :=
  { orderCode := order_code,
    amount := amount,
    description := "Order #" ++ order_id,
    returnUrl := "http://127.0.0.1:5000/payment/success",
    cancelUrl := "http://127.0.0.1:5000/payment/cancel",
    itemName := "Order #" ++ order_id,
    itemPrice := amount,
    itemQuantity := 1 }

/-- The `signature_str` concatenation of `create_payment` (lines 54-60). -/
def signatureStr (pd : PaymentData) : String :=
  "amount=" ++ toString pd.amount
    ++ "&cancelUrl=" ++ pd.cancelUrl
    ++ "&description=" ++ pd.description
    ++ "&orderCode=" ++ toString pd.orderCode
    ++ "&returnUrl=" ++ pd.returnUrl

/-- The outbound `requests.post` call: URL, the three provider headers, and
the JSON payload. -/
structure OutboundReq where
  url : String
  x_client_id : String
  x_api_key : String
  x_signature : String
  body : PaymentData
  deriving DecidableEq, Repr

/-- An HTTP response: its status code and the outcome of `response.json()`
(`Except.error` models a raised exception on a malformed body). -/
structure HttpResp where
  status_code : Nat
  jsonBody : Except String Json

/-- The transport behaviour of `requests.post`: either a raised exception
(timeout, unreachable host, ...) or a response. -/
def Transport : Type :=
  OutboundReq → Except String HttpResp

/-- The request that `create_payment` assembles and signs before posting
(lines 34-83): `none` when `int(order_id)` raises on a non-numeric id. -/
def createRequest (checksum_key client_id api_key api_base_url : String)
    (hmacHex : ByteArray → ByteArray → String)
    (order_id : String) (amount : Int) : Option OutboundReq :=
  (pyInt order_id).map (fun order_code =>
    let pd := paymentData order_id amount order_code
    { url := api_base_url ++ "/v2/payment-requests",
      x_client_id := client_id,
      x_api_key := api_key,
      x_signature := hmacHex checksum_key.toUTF8 (signatureStr pd).toUTF8,
      body := pd })

/-- The result dict of `create_payment`: `success` is always present; each
other key is `some v` when the dict carries it (`v = Json.null` embeds a
Python `None` value under a present key). -/
structure CPResult where
  success : Bool
  payment_url : Option Json
  payment_id : Option Json
  qr_code : Option Json
  error : Option Json
  response : Option Json

/-- The failure dict of `create_payment` (lines 96-101); evaluating
`response_data.get('desc')` itself raises when the response is not a dict. -/
def createPaymentFailure (response_data : Json) : Except String CPResult :=
  match pyGet response_data "desc" with
  | .error e => .error e
  | .ok desc =>
    .ok { success := false, payment_url := none, payment_id := none, qr_code := none,
          error := some desc, response := some response_data }

/-- The success dict of `create_payment` (lines 90-95); the three subscript
chains `response_data['data'][...]` raise on a missing key or a non-dict. -/
def createPaymentSuccess (response_data : Json) : Except String CPResult :=
  match pyIndex response_data "data" with
  | .error e => .error e
  | .ok d =>
    match pyIndex d "checkoutUrl" with
    | .error e => .error e
    | .ok checkoutUrl =>
      match pyIndex d "paymentLinkId" with
      | .error e => .error e
      | .ok paymentLinkId =>
        match pyIndex d "qrCode" with
        | .error e => .error e
        | .ok qrCode =>
          .ok { success := true, payment_url := some checkoutUrl,
                payment_id := some paymentLinkId, qr_code := some qrCode,
                error := none, response := none }

/-- The body of the `try` block of `create_payment` (lines 33-101):
`Except.error` is a raised exception about to be caught by the handler. -/
def createPaymentRaw (checksum_key client_id api_key api_base_url : String)
    (hmacHex : ByteArray → ByteArray → String) (transport : Transport)
    (order_id : String) (amount : Int) (description : String) :
    Except String CPResult :=
  match createRequest checksum_key client_id api_key api_base_url hmacHex order_id amount with
  | none => .error ("invalid literal for int with base 10: " ++ order_id)
  | some req =>
    match transport req with
    | .error e => .error e
    | .ok response =>
      match response.jsonBody with
      | .error e => .error e
      | .ok response_data =>
        if response.status_code == 200 then
          match pyGet response_data "code" with
          | .error e => .error e
          | .ok code =>
            if jsonEqStr code "00" then createPaymentSuccess response_data
            else createPaymentFailure response_data
        else createPaymentFailure response_data

/-- `create_payment(self, order_id, amount, description)` of `PayOSAPI`
(lines 32-105): the `try` body with its blanket `except Exception` handler,
which converts any raised exception into the dict
`{'success': False, 'error': 'Exception: ...'}`. -/
def create_payment (checksum_key client_id api_key api_base_url : String)
    (hmacHex : ByteArray → ByteArray → String) (transport : Transport)
    (order_id : String) (amount : Int) (description : String) : CPResult :=
  match createPaymentRaw checksum_key client_id api_key api_base_url hmacHex transport
      order_id amount description with
  | .ok r => r
  | .error e =>
    { success := false, payment_url := none, payment_id := none, qr_code := none,
      error := some (.str ("Exception: " ++ e)), response := none }

/-! ## The payment-initiation handler, `src/routes/payment.py` lines 25-98
`request.json or {}` is embedded as `Option ProcessBody` (`none` for an
absent or empty body).  The call `api.create_payment(str(order_id), amount,
description)` goes through the provider client; the handler only consumes its
result dict, so the client call is passed in as the function parameter
`api_create_payment` (instantiable with `create_payment` applied to concrete
credentials and a transport). -/

/-- The two JSON body fields the handler reads. -/
structure ProcessBody where
  order_id : Option Int
  payment_method : Option String

/-- The JSON response of `/payment/process` with its HTTP status code. -/
structure PResp where
  httpStatus : Nat
  success : Bool
  error : Option Json
  redirect_url : Option Json
  requires_redirect : Option Bool
  message : Option String

/-- `url_for('orders.order_detail', order_id=order.id)`. -/
def orderDetailUrl (oid : Int) : String :=
  "/orders/" ++ toString oid

/-- The `POST /payment/process` handler (`process_payment` in
`src/routes/payment.py`); `current_user` is the authenticated caller
(`@login_required` guarantees a session). -/
def process_payment (api_create_payment : String → Int → String → CPResult)
    (current_user : Nat) (body : Option ProcessBody) (s : State) : PResp × State :=
  let data := body.getD { order_id := none, payment_method := none }
  let payment_method := data.payment_method.getD "payos"
  match data.order_id with
  | none =>
    ({ httpStatus := 400, success := false, error := some (.str "Missing order ID"),
       redirect_url := none, requires_redirect := none, message := none }, s)
  | some oid =>
    if oid = 0 then
      ({ httpStatus := 400, success := false, error := some (.str "Missing order ID"),
         redirect_url := none, requires_redirect := none, message := none }, s)
    else
      match s.orders oid with
      | some o =>
        if o.user_id = current_user then
          if payment_method = "payos" then
            let result := api_create_payment (toString oid) o.total
              ("Payment for order " ++ toString oid)
            if result.success then
              let s1 := setOrder oid { o with payment_method := some "payos" } s
              ({ httpStatus := 200, success := true, error := none,
                 redirect_url := some (result.payment_url.getD Json.null),
                 requires_redirect := some true, message := none }, s1)
            else
              ({ httpStatus := 400, success := false,
                 error := some (result.error.getD (.str "Payment initialization failed")),
                 redirect_url := none, requires_redirect := none, message := none }, s)
          else if payment_method = "cod" then
            let s1 := setOrder oid
              { o with payment_method := some "cod", status := OrderStatus.PROCESSING } s
            let s2 := clear_cart current_user s1
            ({ httpStatus := 200, success := true, error := none,
               redirect_url := some (.str (orderDetailUrl oid)),
               requires_redirect := some false,
               message := some "Your order has been placed successfully!" }, s2)
          else
            ({ httpStatus := 400, success := false,
               error := some (.str "Invalid payment method"),
               redirect_url := none, requires_redirect := none, message := none }, s)
        else
          ({ httpStatus := 404, success := false, error := some (.str "Order not found"),
             redirect_url := none, requires_redirect := none, message := none }, s)
      | none =>
        ({ httpStatus := 404, success := false, error := some (.str "Order not found"),
           redirect_url := none, requires_redirect := none, message := none }, s)

/-! ## Concrete fixtures used by witnesses and concrete evaluations -/

/-- Order 7: status CREATED, owned by user 1, total 100. -/
def o7 : Order :=
  { user_id := 1, status := OrderStatus.CREATED, payment_method := none,
    payment_id := none, total := 100 }

/-- A store holding exactly order 7, with one item in the cart of user 1. -/
def s0 : State :=
  { orders := fun i => if i = 7 then some o7 else none,
    cart := fun u => if u = 1 then [5] else [],
    clearCount := fun _ => 0 }

/-- A verifier that accepts every payload. -/
def vTrue : WebhookBody → Bool := fun _ => true

/-- A verifier that rejects every payload. -/
def vFalse : WebhookBody → Bool := fun _ => false

/-- The success webhook body for order 7 with transaction tx-9. -/
def b7 : WebhookBody :=
  { orderCode := some 7, status := some "success", transactionId := some "tx-9" }

/-! ## Claims about the webhook handler -/

/-- C1: for every order with status CREATED whose id is N, a webhook delivery
whose body is (orderCode N, status success, transactionId T) and whose
signature verifies is acknowledged with success true (HTTP 200), and
afterwards the order has status PAID, its payment_id equals T, and the cart
of the owner has been cleared.  (Order ids are nonzero: the id column of the
external order store is a positive autoincrement key, and the handler reads a
zero orderCode as a missing field.) -/
theorem webhook_success_paid (verify_webhook : WebhookBody → Bool) (N : Int) (T : String)
    (s : State) (o : Order)
    (hN : N ≠ 0) (ho : s.orders N = some o) (hcr : o.status = OrderStatus.CREATED)
    (hv : verify_webhook { orderCode := some N, status := some "success",
                           transactionId := some T } = true) :
    (webhook verify_webhook
      (some { orderCode := some N, status := some "success", transactionId := some T }) s).1.success
        = true ∧
    (webhook verify_webhook
      (some { orderCode := some N, status := some "success", transactionId := some T }) s).1.httpStatus
        = 200 ∧
    ((webhook verify_webhook
      (some { orderCode := some N, status := some "success", transactionId := some T }) s).2.orders N).map
        Order.status = some OrderStatus.PAID ∧
    ((webhook verify_webhook
      (some { orderCode := some N, status := some "success", transactionId := some T }) s).2.orders N).map
        Order.payment_id = some (some T) ∧
    (webhook verify_webhook
      (some { orderCode := some N, status := some "success", transactionId := some T }) s).2.cart o.user_id
        = [] ∧
    (webhook verify_webhook
      (some { orderCode := some N, status := some "success", transactionId := some T }) s).2.clearCount o.user_id
        = s.clearCount o.user_id + 1 := by
  simp [webhook, hv, pyTruthyInt, pyTruthyStr, hN, ho, clear_cart, setOrder]

/-- Witness for C1 at order 7 of the fixture store, transaction tx-9. -/
theorem webhook_success_paid_witness :
    (webhook vTrue (some b7) s0).1.success = true ∧
    (webhook vTrue (some b7) s0).1.httpStatus = 200 ∧
    ((webhook vTrue (some b7) s0).2.orders 7).map Order.status = some OrderStatus.PAID ∧
    ((webhook vTrue (some b7) s0).2.orders 7).map Order.payment_id = some (some "tx-9") ∧
    (webhook vTrue (some b7) s0).2.cart o7.user_id = [] ∧
    (webhook vTrue (some b7) s0).2.clearCount o7.user_id = s0.clearCount o7.user_id + 1 :=
  webhook_success_paid vTrue 7 "tx-9" s0 o7 (by decide) (by decide) rfl rfl

/-- C2: for every webhook delivery, an empty body is answered with 400; a
non-empty body whose signature does not verify is answered with 400 with the
store untouched; a verified body that references a non-existent order
(a well-formed body: nonzero numeric orderCode and non-empty status) is
answered with 404. -/
theorem webhook_error_paths (verify_webhook : WebhookBody → Bool) (s : State) :
    (webhook verify_webhook none s).1.httpStatus = 400 ∧
    (∀ d, verify_webhook d = false →
      (webhook verify_webhook (some d) s).1.httpStatus = 400 ∧
      (webhook verify_webhook (some d) s).2 = s) ∧
    (∀ d N st, verify_webhook d = true → d.orderCode = some N → N ≠ 0 →
      d.status = some st → st ≠ "" → s.orders N = none →
      (webhook verify_webhook (some d) s).1.httpStatus = 404) := by
  refine ⟨rfl, fun d hvf => ?_, fun d N st hv hoc hN hst hne hord => ?_⟩
  · simp [webhook, hvf]
  · simp [webhook, hv, hoc, hst, pyTruthyInt, pyTruthyStr, hN, hne, hord]

/-- The success webhook body naming the absent order 9. -/
def b9 : WebhookBody :=
  { orderCode := some 9, status := some "success", transactionId := some "tx-9" }

/-- Witness for C2: empty body, rejected signature, and missing order 9 on
the fixture store. -/
theorem webhook_error_paths_witness :
    (webhook vTrue none s0).1.httpStatus = 400 ∧
    ((webhook vFalse (some b9) s0).1.httpStatus = 400 ∧
      (webhook vFalse (some b9) s0).2 = s0) ∧
    (webhook vTrue (some b9) s0).1.httpStatus = 404 :=
  ⟨(webhook_error_paths vTrue s0).1,
   (webhook_error_paths vFalse s0).2.1 b9 rfl,
   (webhook_error_paths vTrue s0).2.2 b9 9 "success" rfl rfl (by decide) rfl
     (by decide) (by decide)⟩

/-- C3 (code bug evidence): delivering the same verified success webhook for
order 7 twice is acknowledged with success both times, but the second
delivery runs the cart-clear side effect again: after two deliveries the
clear counter of owner 1 is 2, not 1, contradicting the required idempotence
of the success transition. -/
theorem webhook_success_twice_clears_cart_twice :
    (webhook vTrue (some b7) (webhook vTrue (some b7) s0).2).1.success = true ∧
    (webhook vTrue (some b7) (webhook vTrue (some b7) s0).2).1.httpStatus = 200 ∧
    ((webhook vTrue (some b7) (webhook vTrue (some b7) s0).2).2.orders 7).map Order.status
      = some OrderStatus.PAID ∧
    (webhook vTrue (some b7) s0).2.clearCount 1 = 1 ∧
    (webhook vTrue (some b7) (webhook vTrue (some b7) s0).2).2.clearCount 1 = 2 := by
  decide

/-- Order 7 already PAID with payment_id tx-1. -/
def o7paid : Order :=
  { user_id := 1, status := OrderStatus.PAID, payment_method := some "payos",
    payment_id := some "tx-1", total := 100 }

/-- A store holding exactly the already-paid order 7. -/
def sPaid : State :=
  { orders := fun i => if i = 7 then some o7paid else none,
    cart := fun _ => [],
    clearCount := fun _ => 0 }

/-- C5 (code bug evidence): a verified cancel webhook moves order 7 from PAID
to CANCELLED, and a verified success webhook with a fresh transaction id
overwrites the already-assigned payment_id of the PAID order 7 - so the
status lifecycle is not append-only and payment_id is not assigned at most
once. -/
theorem webhook_moves_order_out_of_paid :
    ((webhook vTrue
        (some { orderCode := some 7, status := some "cancel", transactionId := none })
        sPaid).2.orders 7).map Order.status = some OrderStatus.CANCELLED ∧
    ((webhook vTrue
        (some { orderCode := some 7, status := some "success", transactionId := some "tx-2" })
        sPaid).2.orders 7).map Order.payment_id = some (some "tx-2") := by
  decide

/-! ## Claims about the provider client -/

/-- Every result the success branch can return has `success = true`. -/
lemma createPaymentSuccess_ok (rd : Json) (r : CPResult)
    (h : createPaymentSuccess rd = Except.ok r) : r.success = true := by
  unfold createPaymentSuccess at h
  repeat' split at h
  all_goals first
    | (injection h with h; subst h; rfl)
    | injection h

/-- Every result the failure branch can return has `success = false` and a
present error key. -/
lemma createPaymentFailure_ok (rd : Json) (r : CPResult)
    (h : createPaymentFailure rd = Except.ok r) :
    r.success = false ∧ r.error.isSome = true := by
  unfold createPaymentFailure at h
  repeat' split at h
  all_goals first
    | (injection h with h; subst h; exact ⟨rfl, rfl⟩)
    | injection h

/-- Every non-exceptional result of the `try` body has a correctly set
`success` flag, with the error key present whenever `success` is false. -/
lemma createPaymentRaw_ok (checksum_key client_id api_key api_base_url : String)
    (hmacHex : ByteArray → ByteArray → String) (transport : Transport)
    (order_id : String) (amount : Int) (description : String) (r : CPResult)
    (hr : createPaymentRaw checksum_key client_id api_key api_base_url hmacHex transport
      order_id amount description = Except.ok r) :
    r.success = true ∨ (r.success = false ∧ r.error.isSome = true) := by
  unfold createPaymentRaw at hr
  repeat' split at hr
  all_goals first
    | exact Or.inl (createPaymentSuccess_ok _ r hr)
    | exact Or.inr (createPaymentFailure_ok _ r hr)
    | simp_all

/-- C4: `create_payment` never raises: for every input, every transport
behaviour (raised exception, non-2xx status, malformed JSON body) and every
non-numeric order_id, it returns a result dict whose `success` key is a
boolean, and on every failure path `success` is false with the error key
present. -/
theorem create_payment_never_raises (checksum_key client_id api_key api_base_url : String)
    (hmacHex : ByteArray → ByteArray → String) (transport : Transport)
    (order_id : String) (amount : Int) (description : String) :
    (create_payment checksum_key client_id api_key api_base_url hmacHex transport
        order_id amount description).success = true ∨
    ((create_payment checksum_key client_id api_key api_base_url hmacHex transport
        order_id amount description).success = false ∧
      (create_payment checksum_key client_id api_key api_base_url hmacHex transport
        order_id amount description).error.isSome = true) := by
  unfold create_payment
  split
  next r hr =>
    exact createPaymentRaw_ok checksum_key client_id api_key api_base_url hmacHex transport
      order_id amount description r hr
  next e hr => exact Or.inr ⟨rfl, rfl⟩

/-- C6 (code bug evidence): with the signing secret absent (a falsy secret,
embedded as the empty string) the signing operation `_create_signature`
returns the empty signature string for every payload instead of failing with
a ConfigurationError. -/
theorem create_signature_missing_secret_empty
    (hmacHex : ByteArray → ByteArray → String) (data : Json) :
    create_signature "" hmacHex data = "" := by
  simp [create_signature]

/-- C7: for every payment-creation request that is actually issued, the
outbound x-signature header equals the HMAC-SHA256 hex digest, keyed by the
UTF-8 bytes of the secret, of the UTF-8 bytes of the string
amount=..&cancelUrl=..&description=..&orderCode=..&returnUrl=.. built from
exactly the five values placed in the outbound payload, in that fixed key
order joined by the ampersand. -/
theorem create_payment_signature_spec (checksum_key client_id api_key api_base_url : String)
    (hmacHex : ByteArray → ByteArray → String) (order_id : String) (amount : Int)
    (req : OutboundReq)
    (hreq : createRequest checksum_key client_id api_key api_base_url hmacHex order_id amount
      = some req) :
    req.x_signature = hmacHex (String.toUTF8 checksum_key)
      (String.toUTF8 ("amount=" ++ toString req.body.amount
        ++ "&cancelUrl=" ++ req.body.cancelUrl
        ++ "&description=" ++ req.body.description
        ++ "&orderCode=" ++ toString req.body.orderCode
        ++ "&returnUrl=" ++ req.body.returnUrl)) := by
  unfold createRequest at hreq
  obtain ⟨order_code, hoc, hf⟩ := Option.map_eq_some'.mp hreq
  subst hf
  rfl

/-- A constant stand-in for the HMAC primitive, used to instantiate C7. -/
def hmacConst : ByteArray → ByteArray → String := fun _ _ => "sig"

/-- A default request for `Option.getD`. -/
def reqDefault : OutboundReq :=
  { url := "", x_client_id := "", x_api_key := "", x_signature := "",
    body := paymentData "" 0 0 }

/-- The request built for order id 7 and amount 100 under `hmacConst`. -/
def reqW : OutboundReq :=
  (createRequest "k" "cid" "ak" "https://api-merchant.payos.vn" hmacConst "7" 100).getD
    reqDefault

/-- Witness for C7 at order id 7 and amount 100. -/
theorem create_payment_signature_spec_witness :
    reqW.x_signature = hmacConst (String.toUTF8 "k")
      (String.toUTF8 ("amount=" ++ toString reqW.body.amount
        ++ "&cancelUrl=" ++ reqW.body.cancelUrl
        ++ "&description=" ++ reqW.body.description
        ++ "&orderCode=" ++ toString reqW.body.orderCode
        ++ "&returnUrl=" ++ reqW.body.returnUrl)) :=
  create_payment_signature_spec "k" "cid" "ak" "https://api-merchant.payos.vn" hmacConst
    "7" 100 reqW (by decide)

/-- C10: `create_payment` is insensitive to its description argument: both
the `try` body (hence the outbound payload, signature and transport
interaction) and the final result coincide for any two description values,
because the payload description and item name are derived from order_id
alone. -/
theorem create_payment_ignores_description (checksum_key client_id api_key api_base_url : String)
    (hmacHex : ByteArray → ByteArray → String) (transport : Transport)
    (order_id : String) (amount : Int) (d1 d2 : String) :
    createPaymentRaw checksum_key client_id api_key api_base_url hmacHex transport
        order_id amount d1
      = createPaymentRaw checksum_key client_id api_key api_base_url hmacHex transport
        order_id amount d2 ∧
    create_payment checksum_key client_id api_key api_base_url hmacHex transport
        order_id amount d1
      = create_payment checksum_key client_id api_key api_base_url hmacHex transport
        order_id amount d2 :=
  ⟨rfl, rfl⟩

/-! ## Claims about payment initiation and the redirect target -/

/-- C8: for every authenticated caller U and every order X not owned by U
(whether X does not exist, or exists and belongs to another user), a POST to
/payment/process naming X is answered 404 and leaves the store unchanged.
(Order ids are nonzero: the id column is a positive autoincrement key, and
the handler reads a zero order_id as missing.) -/
theorem process_payment_unowned_404 (api : String → Int → String → CPResult)
    (u : Nat) (X : Int) (pm : Option String) (s : State)
    (hX : X ≠ 0)
    (hun : s.orders X = none ∨ ∃ o, s.orders X = some o ∧ o.user_id ≠ u) :
    (process_payment api u (some { order_id := some X, payment_method := pm }) s).1.httpStatus
      = 404 ∧
    (process_payment api u (some { order_id := some X, payment_method := pm }) s).2 = s := by
  rcases hun with hno | ⟨o, ho, hne⟩
  · simp [process_payment, hX, hno]
  · simp [process_payment, hX, ho, hne]

/-- A provider client stub for instantiating C8 (never reached on the 404
path). -/
def apiDummy : String → Int → String → CPResult :=
  fun _ _ _ =>
    { success := false, payment_url := none, payment_id := none, qr_code := none,
      error := none, response := none }

/-- Witness for C8: user 2 posting for order 7, which belongs to user 1. -/
theorem process_payment_unowned_404_witness :
    (process_payment apiDummy 2 (some { order_id := some 7, payment_method := none }) s0).1.httpStatus
      = 404 ∧
    (process_payment apiDummy 2 (some { order_id := some 7, payment_method := none }) s0).2 = s0 :=
  process_payment_unowned_404 apiDummy 2 7 none s0 (by decide)
    (Or.inr ⟨o7, by decide, by decide⟩)

/-- C9: for every existing order named by the orderCode query parameter, a
GET to /payment/payment-result with status success - issued by any caller,
authenticated or not, owner or not, with no signature - sets the order
status to PAID, sets its payment_id to the transactionId parameter (the
empty string when absent), and clears the cart of the order owner. -/
theorem payment_result_success_updates (current_user : Option Nat) (ocStr : String)
    (N : Int) (t e : Option String) (s : State) (o : Order)
    (hne : ocStr ≠ "") (hoc : pyInt ocStr = some N) (ho : s.orders N = some o) :
    ((payment_result current_user
        { status := some "success", orderCode := some ocStr, errorCode := e,
          transactionId := t } s).2.orders N).map Order.status = some OrderStatus.PAID ∧
    ((payment_result current_user
        { status := some "success", orderCode := some ocStr, errorCode := e,
          transactionId := t } s).2.orders N).map Order.payment_id
      = some (some (t.getD "")) ∧
    (payment_result current_user
        { status := some "success", orderCode := some ocStr, errorCode := e,
          transactionId := t } s).2.cart o.user_id = [] ∧
    (payment_result current_user
        { status := some "success", orderCode := some ocStr, errorCode := e,
          transactionId := t } s).2.clearCount o.user_id
      = s.clearCount o.user_id + 1 := by
  by_cases hcu : current_user = some o.user_id <;>
    simp [payment_result, hne, hoc, ho, hcu, clear_cart, setOrder]

/-- Witness for C9: an unauthenticated caller redirected for order 7 of the
fixture store with transaction tx-9. -/
theorem payment_result_success_updates_witness :
    ((payment_result none
        { status := some "success", orderCode := some "7", errorCode := none,
          transactionId := some "tx-9" } s0).2.orders 7).map Order.status
      = some OrderStatus.PAID ∧
    ((payment_result none
        { status := some "success", orderCode := some "7", errorCode := none,
          transactionId := some "tx-9" } s0).2.orders 7).map Order.payment_id
      = some (some ((some "tx-9").getD "")) ∧
    (payment_result none
        { status := some "success", orderCode := some "7", errorCode := none,
          transactionId := some "tx-9" } s0).2.cart o7.user_id = [] ∧
    (payment_result none
        { status := some "success", orderCode := some "7", errorCode := none,
          transactionId := some "tx-9" } s0).2.clearCount o7.user_id
      = s0.clearCount o7.user_id + 1 :=
  payment_result_success_updates none "7" 7 (some "tx-9") none s0 o7
    (by decide) (by decide) (by decide)

end PayFlow
